import Mathlib

/-!
Verification of the asynchronous message-dispatch pipeline of the
Merkle chat front-end: a shallow embedding of the Redux chat slice
(src/store/chatSlice.ts), the Grok completion service
(src/services/grokService.ts) and the localStorage persistence layer
(src/utils/messagePersistence.ts), together with theorems settling the
behavioural claims of the design specification.
-/

namespace MerkleChat

/-! ## Data model (src/types/chat.ts and grokService interfaces) -/

/-- Sender of a chat message, from the IMessage interface. -/
inductive Sender
  | user
  | assistant
deriving DecidableEq, Repr

/-- A chat message (interface IMessage in src/types/chat.ts).  The
optional `isLoading?: boolean` field is modelled as a Bool that is
`false` when the field is absent. -/
structure IMessage where
  id : String
  text : String
  sender : Sender
  timestamp : String
  isLoading : Bool := false
deriving DecidableEq, Repr

/-- Role of an outbound chat-completion message (interface GrokMessage). -/
inductive GrokRole
  | system
  | user
  | assistant
deriving DecidableEq, Repr

/-- One entry of the request message list (interface GrokMessage). -/
structure GrokMessage where
  role : GrokRole
  content : String
deriving DecidableEq, Repr

/-! ## Retrying request executor (GrokService.retryWithBackoff)

The TypeScript loop runs `attempt` from `0` to `maxRetries`; on success it
returns, on failure it rethrows when `attempt === maxRetries` and otherwise
sleeps `Math.pow(2, attempt) * 1000` milliseconds and continues.  The
embedding makes the observable behaviour explicit: the result, the number
of attempts performed, and the list of back-off delays waited (in order,
in milliseconds).  The operation is a function of the attempt index so
that per-attempt outcomes can be expressed. -/

/-- Observable trace of one `retryWithBackoff` run. -/
structure RetryTrace (E T : Type) where
  result : Except E T
  attempts : Nat
  delays : List Nat
deriving Repr

/-- Recursion underlying `retryWithBackoff`: `attempt` is the index of
the attempt about to run, `remaining` the number of retries still in
budget (the loop body for `attempt = maxRetries` corresponds to
`remaining = 0`, where the error is rethrown). -/
def retryGo {E T : Type} (fn : Nat → Except E T) (attempt : Nat) :
    Nat → RetryTrace E T
  | 0 =>
    match fn attempt with
    | .ok v => ⟨.ok v, 1, []⟩
    | .error e => ⟨.error e, 1, []⟩
  | r + 1 =>
    match fn attempt with
    | .ok v => ⟨.ok v, 1, []⟩
    | .error _ =>
      let rest := retryGo fn (attempt + 1) r
      ⟨rest.result, rest.attempts + 1, 2 ^ attempt * 1000 :: rest.delays⟩

/-- GrokService.retryWithBackoff: run `fn` with at most `maxRetries`
retries and exponential back-off, starting at attempt 0. -/
def retryWithBackoff {E T : Type} (fn : Nat → Except E T)
    (maxRetries : Nat) : RetryTrace E T :=
  retryGo fn 0 maxRetries

/-- The user-facing error message produced by GrokService.sendMessage for
a failed HTTP response, keyed on the status code (the `if` chain on
`response.status` in sendMessage). -/
def statusUserMessage (status : Nat) (fallback : String) : String :=
  if status == 401 then
    "Invalid API key. Please check your Grok API configuration."
  else if status == 429 then
    "Rate limit exceeded. Please wait a moment before sending another message."
  else if 500 ≤ status then
    "Grok service is temporarily unavailable. Please try again later."
  else if status == 403 then
    "Access denied. Please check your API key permissions."
  else fallback

/-- Modelled from the spec: the section 7 error taxonomy.  The source
code has no such type (errors are plain strings); this definition exists
only so that claims phrased in terms of error categories can be stated. -/
inductive SpecErrorCategory
  | timeout
  | rateLimited
  | serviceUnavailable
  | authError
  | requestError
  | malformedResponse
deriving DecidableEq, Repr

/-- Modelled from the spec: which section 7 categories are retryable. -/
def SpecErrorCategory.isRetryable : SpecErrorCategory → Bool
  | .timeout => true
  | .rateLimited => true
  | .serviceUnavailable => true
  | .authError => false
  | .requestError => false
  | .malformedResponse => false

/-- When every attempt fails, `retryGo` makes `remaining + 1` attempts,
surfaces the error of the final attempt, and waits
`2 ^ (attempt + i) * 1000` ms after the i-th failure. -/
theorem retryGo_allFail {E T : Type} (err : Nat → E) (a : Nat) (r : Nat) :
    retryGo (fun k => (Except.error (err k) : Except E T)) a r =
      ⟨Except.error (err (a + r)), r + 1,
        (List.range r).map (fun i => 2 ^ (a + i) * 1000)⟩ := by
  induction r generalizing a with
  | zero => simp [retryGo]
  | succ r ih =>
    have h1 : a + (r + 1) = (a + 1) + r := by omega
    have h2 : (List.range (r + 1)).map (fun i => 2 ^ (a + i) * 1000)
        = 2 ^ a * 1000 :: (List.range r).map (fun i => 2 ^ ((a + 1) + i) * 1000) := by
      rw [List.range_succ_eq_map, List.map_cons, List.map_map]
      refine congrArg₂ _ (by rw [Nat.add_zero]) ?_
      refine List.map_congr_left ?_
      intro i _
      simp only [Function.comp_apply]
      have h3 : a + Nat.succ i = (a + 1) + i := by omega
      rw [h3]
    rw [h1, h2]
    simp only [retryGo, ih (a + 1)]

/-- Claim C3: when every attempt fails with a retryable error, the
retrying request executor makes exactly `maxRetries + 1` attempts, waits
`2 ^ (k - 1) * 1000` ms before retry attempt k (so the delay list is
`[1000, 2000, 4000, ...]` with no jitter), and surfaces the error of the
last attempt to the caller. -/
theorem c3_retry_exhaustion {E T : Type} (fn : Nat → Except E T)
    (err : Nat → E) (maxRetries : Nat)
    (h : ∀ k, fn k = Except.error (err k)) :
    (retryWithBackoff fn maxRetries).attempts = maxRetries + 1 ∧
    (retryWithBackoff fn maxRetries).result = Except.error (err maxRetries) ∧
    (retryWithBackoff fn maxRetries).delays
      = (List.range maxRetries).map (fun k => 2 ^ k * 1000) := by
  have hfn : fn = fun k => (Except.error (err k) : Except E T) := funext h
  rw [retryWithBackoff, hfn, retryGo_allFail err 0 maxRetries]
  refine ⟨rfl, by rw [Nat.zero_add], ?_⟩
  refine List.map_congr_left ?_
  intro i _
  rw [Nat.zero_add]

/-- Witness for C3: an operation that fails every attempt with error
code 7, run with the default budget maxRetries = 3, is attempted 4 times
with delays 1s, 2s, 4s, and error 7 is surfaced at the end. -/
theorem c3_retry_exhaustion_witness :
    (retryWithBackoff (fun _ => (Except.error 7 : Except Nat Unit)) 3).attempts = 3 + 1 ∧
    (retryWithBackoff (fun _ => (Except.error 7 : Except Nat Unit)) 3).result = Except.error 7 ∧
    (retryWithBackoff (fun _ => (Except.error 7 : Except Nat Unit)) 3).delays
      = (List.range 3).map (fun k => 2 ^ k * 1000) :=
  c3_retry_exhaustion (fun _ => (Except.error 7 : Except Nat Unit))
    (fun _ => 7) 3 (fun _ => rfl)

/-- Claim C1 counterexample: an operation that always fails with the
user-facing 401 message (the non-retryable AuthError category of the
spec) is attempted 4 times by `retryWithBackoff` under the default
budget `maxRetries = 3`, not exactly 1 time as the claim states: the
executor has no non-retryable short-circuit. -/
theorem c1_counterexample :
    (retryWithBackoff
      (fun _ => (Except.error (statusUserMessage 401 "HTTP 401") : Except String Unit))
      3).attempts = 4 ∧
    ¬ ((retryWithBackoff
      (fun _ => (Except.error (statusUserMessage 401 "HTTP 401") : Except String Unit))
      3).attempts = 1) := by
  constructor
  · rfl
  · intro h
    simp only [retryWithBackoff, retryGo] at h
    omega

/-- Claim C1 (amended): the retrying request executor does not inspect
error categories at all; an operation failing with a non-retryable
category (for example AuthError, the category of an HTTP 401) is still
re-attempted until the budget is exhausted, consuming the full retry
budget: `maxRetries + 1` attempts in total, with the error surfaced only
after the final attempt. -/
theorem c1_no_short_circuit (e : SpecErrorCategory) (maxRetries : Nat)
    (h : e.isRetryable = false) :
    (retryWithBackoff
      (fun _ => (Except.error e : Except SpecErrorCategory Unit)) maxRetries).attempts
      = maxRetries + 1 ∧
    (retryWithBackoff
      (fun _ => (Except.error e : Except SpecErrorCategory Unit)) maxRetries).result
      = Except.error e := by
  have h2 := retryGo_allFail (T := Unit) (fun _ => e) 0 maxRetries
  rw [retryWithBackoff, h2]
  exact ⟨rfl, rfl⟩

/-- Witness for the amended C1: a constantly failing AuthError operation
(non-retryable in the spec taxonomy) still consumes the whole default
budget: 4 attempts for maxRetries = 3. -/
theorem c1_no_short_circuit_witness :
    SpecErrorCategory.authError.isRetryable = false ∧
    (retryWithBackoff
      (fun _ => (Except.error SpecErrorCategory.authError : Except SpecErrorCategory Unit))
      3).attempts = 3 + 1 ∧
    (retryWithBackoff
      (fun _ => (Except.error SpecErrorCategory.authError : Except SpecErrorCategory Unit))
      3).result = Except.error SpecErrorCategory.authError :=
  ⟨rfl, (c1_no_short_circuit SpecErrorCategory.authError 3 rfl).1,
    (c1_no_short_circuit SpecErrorCategory.authError 3 rfl).2⟩

/-! ## Session state (src/store/chatSlice.ts)

The Redux chat slice: the ChatState interface, its initial value, the
synchronous reducers, and the extraReducers of the async thunks.  Each
reducer is a pure function on ChatState, exactly as Redux Toolkit
presents it. -/

/-- Connection status union type of the ChatState interface. -/
inductive ConnectionStatus
  | connected
  | disconnected
  | reconnecting
deriving DecidableEq, Repr

/-- The ChatState interface of the chat slice. -/
structure ChatState where
  messages : List IMessage
  isLoading : Bool
  error : Option String
  currentInput : String
  isTyping : Bool
  sessionId : Option String
  messageQueue : List String
  isProcessingQueue : Bool
  connectionStatus : ConnectionStatus
  retryCount : Nat
deriving DecidableEq, Repr

/-- The initialState constant of the chat slice. -/
def initialState : ChatState :=
  { messages := []
    isLoading := false
    error := none
    currentInput := ""
    isTyping := false
    sessionId := none
    messageQueue := []
    isProcessingQueue := false
    connectionStatus := .connected
    retryCount := 0 }

/-- Reducer enqueueMessage: push the payload onto messageQueue. -/
def enqueueMessage (s : ChatState) (msg : String) : ChatState :=
  { s with messageQueue := s.messageQueue ++ [msg] }

/-- Reducer dequeueMessage: `messageQueue.shift()` removes the front
element (no-op on an empty queue). -/
def dequeueMessage (s : ChatState) : ChatState :=
  { s with messageQueue := s.messageQueue.tail }

/-- Reducer setConnectionStatus: update the status, and reset retryCount
to 0 when the new status is connected. -/
def setConnectionStatus (s : ChatState) (status : ConnectionStatus) : ChatState :=
  let s1 := { s with connectionStatus := status }
  if status = .connected then { s1 with retryCount := 0 } else s1

/-- Reducer for sendMessageToGrok.pending. -/
def sendPending (s : ChatState) : ChatState :=
  { s with isLoading := true, isTyping := true, error := none }

/-- Reducer for sendMessageToGrok.fulfilled: append the assistant
response message. -/
def sendFulfilled (s : ChatState) (response : IMessage) : ChatState :=
  { s with
    isLoading := false
    isTyping := false
    error := none
    messages := s.messages ++ [response] }

/-- Reducer for sendMessageToGrok.rejected: record the rejection payload
as the error. -/
def sendRejected (s : ChatState) (errorMessage : String) : ChatState :=
  { s with isLoading := false, isTyping := false, error := some errorMessage }

/-- Reducer for initializeChatSession.pending. -/
def initPending (s : ChatState) : ChatState :=
  { s with isLoading := true, error := none }

/-- Reducer for initializeChatSession.fulfilled: store the fresh
sessionId (the payload isHealthy flag is not used by the reducer). -/
def initFulfilled (s : ChatState) (sessionId : String) : ChatState :=
  { s with isLoading := false, sessionId := some sessionId, error := none }

/-- Reducer for processMessageQueue.pending. -/
def queuePending (s : ChatState) : ChatState :=
  { s with isProcessingQueue := true }

/-- Reducer for processMessageQueue.fulfilled (the rejected reducer is
identical). -/
def queueFulfilled (s : ChatState) : ChatState :=
  { s with isProcessingQueue := false }

/-- Claim C7: setConnectionStatus sets connectionStatus to the given
status, resets retryCount to 0 exactly when the new status is connected,
and leaves retryCount unchanged on a transition to disconnected or
reconnecting. -/
theorem c7_setConnectionStatus (s : ChatState) (status : ConnectionStatus) :
    (setConnectionStatus s status).connectionStatus = status ∧
    (setConnectionStatus s status).retryCount
      = (if status = .connected then 0 else s.retryCount) ∧
    (setConnectionStatus s status).messages = s.messages ∧
    (setConnectionStatus s status).messageQueue = s.messageQueue := by
  cases status <;> simp [setConnectionStatus]

/-! ## Session bootstrapper (initializeChatSession thunk)

The thunk calls `grokService.healthCheck()` exactly once, logs a warning
when it reports unhealthy, and fulfils with a fresh
`'session_' + Date.now()` identifier together with the probe result.
`healthCheck` itself never throws: it maps any outcome of its trial
sendMessage call to a Bool.  The probe outcome is passed in as data (the
network is external); `now` stands for `Date.now()`. -/

/-- GrokService.healthCheck: true on a successful trial send, false on
any error (the catch clause returns false instead of rethrowing). -/
def healthCheck (trialSend : Except String String) : Bool :=
  match trialSend with
  | .ok _ => true
  | .error _ => false

/-- The fresh opaque session identifier `'session_' + Date.now()`. -/
def freshSessionId (now : Nat) : String :=
  "session_" ++ toString now

/-- The initializeChatSession thunk run against state `s`: the pending
reducer fires, the payload creator probes health once, and the fulfilled
reducer stores the sessionId.  Returns the new state together with the
isHealthy payload field. -/
def initializeChatSession (s : ChatState) (trialSend : Except String String)
    (now : Nat) : ChatState × Bool :=
  let isHealthy := healthCheck trialSend
  (initFulfilled (initPending s) (freshSessionId now), isHealthy)

/-- Claim C4 counterexample: running the session bootstrapper from the
initial state with a failing health probe leaves connectionStatus at
connected; it is not degraded to disconnected as the claim states,
because no initializeChatSession reducer ever writes connectionStatus. -/
theorem c4_counterexample :
    (initializeChatSession initialState (Except.error "network down") 0).1.connectionStatus
      = ConnectionStatus.connected ∧
    ConnectionStatus.connected ≠ ConnectionStatus.disconnected := by
  exact ⟨rfl, by decide⟩

/-- Claim C4 (amended): the session bootstrapper issues a single health
probe, completes without rejecting even when the probe fails (startup is
not blocked: isLoading ends false and no error is recorded), and assigns
the fresh opaque sessionId — but it leaves connectionStatus unchanged
regardless of the probe result instead of degrading it to disconnected. -/
theorem c4_bootstrap (s : ChatState) (trialSend : Except String String) (now : Nat) :
    (initializeChatSession s trialSend now).1.sessionId = some (freshSessionId now) ∧
    (initializeChatSession s trialSend now).1.connectionStatus = s.connectionStatus ∧
    (initializeChatSession s trialSend now).1.isLoading = false ∧
    (initializeChatSession s trialSend now).1.error = none ∧
    (initializeChatSession s trialSend now).2 = healthCheck trialSend := by
  exact ⟨rfl, rfl, rfl, rfl, rfl⟩

/-! ## Completion client request building

The sendMessageToGrok thunk converts the chat history with
`state.chat.messages.slice(-10).filter(msg => !msg.isLoading).map(...)`
and GrokService.sendMessage assembles
`[{role:'system',...}, ...conversationHistory, {role:'user', content:message}]`. -/

/-- JavaScript `array.slice(-n)`: the last `n` elements (the whole array
when it is shorter than `n`). -/
def sliceLast {α : Type} (n : Nat) (l : List α) : List α :=
  l.drop (l.length - n)

/-- The role/content conversion applied to each history message in
sendMessageToGrok. -/
def toGrokMessage (m : IMessage) : GrokMessage :=
  { role := if m.sender = Sender.user then GrokRole.user else GrokRole.assistant
    content := m.text }

/-- The conversationHistory built by the sendMessageToGrok thunk: last
10 messages, loading placeholders excluded, converted to Grok format. -/
def conversationHistory (messages : List IMessage) : List GrokMessage :=
  ((sliceLast 10 messages).filter (fun m => !m.isLoading)).map toGrokMessage

/-- The request message list assembled by GrokService.sendMessage. -/
def buildRequestMessages (systemPrompt : String)
    (history : List GrokMessage) (message : String) : List GrokMessage :=
  { role := GrokRole.system, content := systemPrompt }
    :: (history ++ [{ role := GrokRole.user, content := message }])

/-- Filtering a dropped tail yields a final segment of filtering the
whole list. -/
theorem filter_drop_isSuffix {α : Type} (p : α → Bool) (k : Nat) (l : List α) :
    (l.drop k).filter p <:+ l.filter p :=
  ⟨(l.take k).filter p, by rw [← List.filter_append, List.take_append_drop]⟩

/-- Claim C5: the outbound request message list is exactly one system
message first, then a block of at most 10 historical messages, then the
new user message last; the history block contains the most recent
non-loading messages in their original oldest-first order (it is a final
segment of the full non-loading history, so everything older is
dropped). -/
theorem c5_request_shape (systemPrompt message : String) (messages : List IMessage) :
    ∃ hist : List GrokMessage,
      buildRequestMessages systemPrompt (conversationHistory messages) message
        = { role := GrokRole.system, content := systemPrompt }
          :: (hist ++ [{ role := GrokRole.user, content := message }]) ∧
      hist.length ≤ 10 ∧
      hist <:+ (messages.filter (fun m => !m.isLoading)).map toGrokMessage := by
  refine ⟨conversationHistory messages, rfl, ?_, ?_⟩
  · calc (conversationHistory messages).length
        = ((sliceLast 10 messages).filter (fun m => !m.isLoading)).length := by
          rw [conversationHistory, List.length_map]
      _ ≤ (sliceLast 10 messages).length := List.length_filter_le _ _
      _ ≤ 10 := by
          rw [sliceLast, List.length_drop]
          omega
  · rw [conversationHistory, sliceLast]
    exact (filter_drop_isSuffix (fun m => !m.isLoading)
      (messages.length - 10) messages).map toGrokMessage

/-! ## Queue dispatcher: one drain step (processMessageQueue thunk)

The thunk reads the queue; if empty it returns at once.  Otherwise it
reads the front item, dispatches dequeueMessage, awaits
sendMessageToGrok for that item (whose pending/fulfilled/rejected
reducers fire), and — since `await dispatch(thunk)` resolves with the
action rather than throwing on rejection — always proceeds to check the
queue again, scheduling a `setTimeout(processMessageQueue, 500)`
continuation when it is non-empty.  The network outcome is passed in as
a function of the message text; `id` and `ts` stand for the generated
response id and timestamp. -/

/-- Result of one processMessageQueue invocation: the state after the
fulfilled reducer, and whether a 500 ms continuation was scheduled. -/
structure DrainResult where
  state : ChatState
  scheduled : Bool
deriving DecidableEq, Repr

/-- The assistant response IMessage constructed in sendMessageToGrok. -/
def mkAssistantMessage (id ts text : String) : IMessage :=
  { id := id, text := text, sender := .assistant, timestamp := ts, isLoading := false }

/-- The sendMessageToGrok thunk as a state transform, given the outcome
of the GrokService call for the dispatched text. -/
def sendMessageToGrok (s : ChatState) (outcome : Except String String)
    (id ts : String) : ChatState :=
  match outcome with
  | .ok text => sendFulfilled (sendPending s) (mkAssistantMessage id ts text)
  | .error e => sendRejected (sendPending s) e

/-- One invocation of the processMessageQueue thunk. -/
def processMessageQueue (s : ChatState) (outcome : String → Except String String)
    (id ts : String) : DrainResult :=
  let s0 := queuePending s
  match s0.messageQueue with
  | [] => { state := queueFulfilled s0, scheduled := false }
  | next :: _ =>
    let s1 := dequeueMessage s0
    let s2 := sendMessageToGrok s1 (outcome next) id ts
    { state := queueFulfilled s2, scheduled := !s2.messageQueue.isEmpty }

/-- Claim C6: in a drain step the front item is removed from the queue
before its send begins (the state the send runs against already has
queue = rest), and a permanently failed send is not re-enqueued: the
failure is recorded as the error, the queue after the step is exactly
the untouched rest, no message is appended, and draining continues with
a scheduled next step exactly when the rest is non-empty. -/
theorem c6_failed_item_not_requeued (s : ChatState)
    (outcome : String → Except String String) (id ts next e : String)
    (rest : List String)
    (hq : s.messageQueue = next :: rest)
    (ho : outcome next = Except.error e) :
    (dequeueMessage (queuePending s)).messageQueue = rest ∧
    (processMessageQueue s outcome id ts).state.messageQueue = rest ∧
    (processMessageQueue s outcome id ts).state.error = some e ∧
    (processMessageQueue s outcome id ts).state.messages = s.messages ∧
    (processMessageQueue s outcome id ts).state.isProcessingQueue = false ∧
    (processMessageQueue s outcome id ts).scheduled = !rest.isEmpty := by
  simp [processMessageQueue, queuePending, queueFulfilled, dequeueMessage,
    sendMessageToGrok, sendPending, sendRejected, hq, ho]

/-- Witness for C6: a state whose queue holds two items, whose front
item fails with a permanent error: the step leaves exactly the second
item queued, records the error, and schedules a continuation. -/
theorem c6_failed_item_not_requeued_witness :
    (dequeueMessage (queuePending (enqueueMessage (enqueueMessage initialState "a") "b"))).messageQueue = ["b"] ∧
    (processMessageQueue (enqueueMessage (enqueueMessage initialState "a") "b")
      (fun _ => Except.error "boom") "id1" "ts1").state.messageQueue = ["b"] ∧
    (processMessageQueue (enqueueMessage (enqueueMessage initialState "a") "b")
      (fun _ => Except.error "boom") "id1" "ts1").state.error = some "boom" ∧
    (processMessageQueue (enqueueMessage (enqueueMessage initialState "a") "b")
      (fun _ => Except.error "boom") "id1" "ts1").state.messages
      = (enqueueMessage (enqueueMessage initialState "a") "b").messages ∧
    (processMessageQueue (enqueueMessage (enqueueMessage initialState "a") "b")
      (fun _ => Except.error "boom") "id1" "ts1").state.isProcessingQueue = false ∧
    (processMessageQueue (enqueueMessage (enqueueMessage initialState "a") "b")
      (fun _ => Except.error "boom") "id1" "ts1").scheduled = !(["b"] : List String).isEmpty :=
  c6_failed_item_not_requeued (enqueueMessage (enqueueMessage initialState "a") "b")
    (fun _ => Except.error "boom") "id1" "ts1" "a" "boom" ["b"] rfl rfl

/-! ## Dispatch concurrency model

An event-loop model of everything that drives draining:

* a submit (the handleSend handler in ThreeSectionInput): guarded by
  `message.trim() && !isLoading && connectionStatus !== 'disconnected'`;
  when that guard passes it dispatches addUserMessage and
  enqueueMessage, and then dispatches processMessageQueue only when
  isProcessingQueue is false — when the guard fails the whole handler
  does nothing;
* a continuation-timer firing (the `setTimeout(() =>
  dispatch(processMessageQueue()), 500)` scheduled inside the thunk):
  it dispatches processMessageQueue unconditionally;
* the resolution of an in-flight sendMessageToGrok call: its
  fulfilled/rejected reducer clears isLoading, then the owning drain
  synchronously re-reads the queue, schedules a continuation timer when
  it is non-empty, and fulfils (resetting isProcessingQueue).

Each event runs atomically to its next suspension point, matching the
single-threaded JavaScript event loop: the only suspension inside a
drain is the awaited send, during which isLoading is true.
`activeSends` counts drains currently awaiting a sendMessageToGrok
call, that is, completion-client calls in flight.  The submit event
carries the already-trimmed message text, so its guard requires that
text to be non-empty. -/

/-- The portion of the store state and event loop relevant to drain
coordination. -/
structure DispatchState where
  queue : List String
  isProcessingQueue : Bool
  isLoading : Bool
  activeSends : Nat
  pendingTimers : Nat
  connectionStatus : ConnectionStatus
deriving DecidableEq, Repr

/-- Events that can occur between suspension points. -/
inductive DispatchEvent
  | submit (msg : String)
  | timerFire
  | sendResolve
deriving DecidableEq, Repr

/-- Dispatching the processMessageQueue thunk: the pending reducer sets
isProcessingQueue; an empty queue returns immediately (fulfilled);
otherwise the front item is dequeued and its send begins, firing the
sendMessageToGrok.pending reducer (isLoading becomes true). -/
def drainStart (s : DispatchState) : DispatchState :=
  let s1 := { s with isProcessingQueue := true }
  match s1.queue with
  | [] => { s1 with isProcessingQueue := false }
  | _ :: rest =>
    { s1 with queue := rest, activeSends := s1.activeSends + 1, isLoading := true }

/-- One atomic event of the dispatch system.  Events that are not
enabled (a submit whose handleSend guard fails, resolving with no send
in flight, a timer firing with none pending) leave the state
unchanged. -/
def dispatchStep (s : DispatchState) : DispatchEvent → DispatchState
  | .submit msg =>
    if msg ≠ "" ∧ s.isLoading = false ∧ s.connectionStatus ≠ .disconnected then
      let s1 := { s with queue := s.queue ++ [msg] }
      if s.isProcessingQueue then s1 else drainStart s1
    else s
  | .timerFire =>
    if s.pendingTimers = 0 then s
    else drainStart { s with pendingTimers := s.pendingTimers - 1 }
  | .sendResolve =>
    if s.activeSends = 0 then s
    else
      let s1 := { s with activeSends := s.activeSends - 1, isLoading := false }
      let s2 := if s1.queue.isEmpty then s1
        else { s1 with pendingTimers := s1.pendingTimers + 1 }
      { s2 with isProcessingQueue := false }

/-- Run a sequence of events from the initial store state. -/
def dispatchRun (events : List DispatchEvent) : DispatchState :=
  events.foldl dispatchStep
    { queue := []
      isProcessingQueue := false
      isLoading := false
      activeSends := 0
      pendingTimers := 0
      connectionStatus := .connected }

/-- The coordination invariant every event preserves: no continuation
timer is ever pending, the queue never retains an item across a
suspension point (an enabled submit finds the system idle and its drain
immediately dequeues the one item it just pushed), and the system is
either fully idle or has exactly one drain owning exactly one send in
flight. -/
def DispatchInv (s : DispatchState) : Prop :=
  s.pendingTimers = 0 ∧ s.queue = [] ∧
  ((s.activeSends = 0 ∧ s.isLoading = false ∧ s.isProcessingQueue = false) ∨
   (s.activeSends = 1 ∧ s.isLoading = true ∧ s.isProcessingQueue = true))

/-- One event preserves the coordination invariant: a submit during an
in-flight send is blocked by the handleSend isLoading guard, so the
queue is empty at every send-resolve and the 500 ms continuation timer
is never scheduled. -/
theorem dispatchStep_inv (s : DispatchState) (e : DispatchEvent)
    (h : DispatchInv s) : DispatchInv (dispatchStep s e) := by
  obtain ⟨ht, hq, hcase⟩ := h
  cases e with
  | submit msg =>
    rcases hcase with ⟨h0, hl, hp⟩ | ⟨h1, hl, hp⟩
    · simp only [dispatchStep]
      split
      · simp [drainStart, DispatchInv, hq, hp, ht, h0]
      · exact ⟨ht, hq, Or.inl ⟨h0, hl, hp⟩⟩
    · have hg : ¬ (msg ≠ "" ∧ s.isLoading = false ∧ s.connectionStatus ≠ .disconnected) := by
        simp [hl]
      simp only [dispatchStep, if_neg hg]
      exact ⟨ht, hq, Or.inr ⟨h1, hl, hp⟩⟩
  | timerFire =>
    simp only [dispatchStep, ht, if_pos rfl]
    exact ⟨ht, hq, hcase⟩
  | sendResolve =>
    rcases hcase with ⟨h0, hl, hp⟩ | ⟨h1, hl, hp⟩
    · simp only [dispatchStep, h0, if_pos rfl]
      exact ⟨ht, hq, Or.inl ⟨h0, hl, hp⟩⟩
    · simp only [dispatchStep]
      rw [if_neg (by omega)]
      simp [DispatchInv, hq, ht, h1]

/-- The invariant holds along any event sequence started in an
invariant state. -/
theorem foldl_dispatchStep_inv (events : List DispatchEvent)
    (s : DispatchState) (h : DispatchInv s) :
    DispatchInv (events.foldl dispatchStep s) := by
  induction events generalizing s with
  | nil => exact h
  | cons e rest ih => exact ih (dispatchStep s e) (dispatchStep_inv s e h)

/-- Claim C2: for every sequence of enqueue and drain triggers (submits,
continuation-timer firings, send resolutions), at most one drain loop is
active at any instant and no two completion-client calls are ever in
flight concurrently: every reachable state has at most one in-flight
send, and whenever no drain owns the queue there is no in-flight send at
all.  The handleSend isLoading guard blocks submits while a send is in
flight, so a second drain is never started while one is active. -/
theorem c2_at_most_one_drain (events : List DispatchEvent) :
    (dispatchRun events).activeSends ≤ 1 ∧
    ((dispatchRun events).isProcessingQueue = false →
      (dispatchRun events).activeSends = 0) := by
  have h : DispatchInv (dispatchRun events) :=
    foldl_dispatchStep_inv events
      { queue := []
        isProcessingQueue := false
        isLoading := false
        activeSends := 0
        pendingTimers := 0
        connectionStatus := .connected }
      ⟨rfl, rfl, Or.inl ⟨rfl, rfl, rfl⟩⟩
  rcases h with ⟨-, -, ⟨h0, -, -⟩ | ⟨h1, -, hp⟩⟩
  · exact ⟨by omega, fun _ => h0⟩
  · refine ⟨by omega, fun hfalse => ?_⟩
    rw [hp] at hfalse
    cases hfalse

/-! ## Message persistence (src/utils/messagePersistence.ts)

The store is one localStorage entry under the fixed key.  Its contents
are modelled structurally: `StoredBlob.good d` stands for the
JSON.stringify output of a StoredChatData value `d` (which JSON.parse
maps back to `d`), and `StoredBlob.malformed` stands for any string on
which JSON.parse throws.  `lastUpdated` is the save instant in epoch
milliseconds (the code stores it as an ISO string and compares it as a
Date).  loadMessages returns the loaded value together with the entry
contents afterwards, since the corrupt and stale paths clear the entry. -/

/-- The StoredChatData interface. -/
structure StoredChatData where
  messages : List IMessage
  lastUpdated : Nat
  sessionId : Option String
deriving DecidableEq, Repr

/-- Contents of the localStorage entry. -/
inductive StoredBlob
  | good (data : StoredChatData)
  | malformed
deriving DecidableEq, Repr

/-- The MAX_STORED_MESSAGES constant. -/
def MAX_STORED_MESSAGES : Nat := 100

/-- Seven days in milliseconds, the staleness window checked by
loadMessages via `sevenDaysAgo.setDate(getDate() - 7)`. -/
def SEVEN_DAYS_MS : Nat := 7 * 24 * 60 * 60 * 1000

/-- MessagePersistence.clearMessages: remove the entry. -/
def clearMessages : Option StoredBlob :=
  none

/-- MessagePersistence.saveMessages: keep only the most recent
MAX_STORED_MESSAGES messages (`messages.slice(-MAX_STORED_MESSAGES)`)
and overwrite the entry with them, the save instant, and the session
id. -/
def saveMessages (now : Nat) (messages : List IMessage)
    (sessionId : Option String) : Option StoredBlob :=
  some (.good
    { messages := messages.drop (messages.length - MAX_STORED_MESSAGES)
      lastUpdated := now
      sessionId := sessionId })

/-- MessagePersistence.loadMessages at instant `now`: null when the
entry is absent; on an unparseable entry, clear it and return null; on a
snapshot strictly older than seven days, clear it and return null;
otherwise return the stored data.  The second component is the entry
contents after the call. -/
def loadMessages (store : Option StoredBlob) (now : Nat) :
    Option StoredChatData × Option StoredBlob :=
  match store with
  | none => (none, none)
  | some .malformed => (none, clearMessages)
  | some (.good data) =>
    if data.lastUpdated < now - SEVEN_DAYS_MS then (none, clearMessages)
    else (some data, some (.good data))

/-- A fixed message used in concrete persistence scenarios. -/
def sampleMessage : IMessage :=
  { id := "x", text := "t", sender := .user, timestamp := "ts", isLoading := false }

/-- Claim C8 counterexample: saving 101 messages and loading immediately
does not return the same messages — the snapshot was truncated to the
most recent 100 at save time. -/
theorem c8_counterexample :
    ((loadMessages (saveMessages 0 (List.replicate 101 sampleMessage) (some "sid")) 0).1.map
        (fun d => d.messages))
      = some (List.replicate 100 sampleMessage) ∧
    ¬ (((loadMessages (saveMessages 0 (List.replicate 101 sampleMessage) (some "sid")) 0).1.map
        (fun d => d.messages))
      = some (List.replicate 101 sampleMessage)) := by
  constructor
  · rfl
  · intro h
    have h2 : (List.replicate 100 sampleMessage).length
        = (List.replicate 101 sampleMessage).length := by
      have h3 : some (List.replicate 100 sampleMessage)
          = some (List.replicate 101 sampleMessage) := by
        rw [← h]
        rfl
      rw [Option.some.injEq] at h3
      rw [h3]
    simp only [List.length_replicate] at h2
    omega

/-- Claim C8 (amended): save then load within 7 days returns the most
recent `min 100 (length)` messages (so all of them whenever at most 100
were saved) and the same session id, while a load strictly more than 7
days after the save returns null and clears the entry. -/
theorem c8_save_load_roundtrip (messages : List IMessage) (sid : Option String)
    (tSave tLoad : Nat) :
    (tLoad ≤ tSave + SEVEN_DAYS_MS →
      (loadMessages (saveMessages tSave messages sid) tLoad).1
        = some
          { messages := messages.drop (messages.length - MAX_STORED_MESSAGES)
            lastUpdated := tSave
            sessionId := sid }) ∧
    (tLoad ≤ tSave + SEVEN_DAYS_MS → messages.length ≤ MAX_STORED_MESSAGES →
      (loadMessages (saveMessages tSave messages sid) tLoad).1
        = some { messages := messages, lastUpdated := tSave, sessionId := sid }) ∧
    (tSave + SEVEN_DAYS_MS < tLoad →
      (loadMessages (saveMessages tSave messages sid) tLoad)
        = (none, clearMessages)) := by
  refine ⟨?_, ?_, ?_⟩
  · intro hfresh
    simp only [saveMessages, loadMessages]
    rw [if_neg (by simp only [SEVEN_DAYS_MS] at hfresh ⊢; omega)]
  · intro hfresh hlen
    simp only [saveMessages, loadMessages]
    rw [if_neg (by simp only [SEVEN_DAYS_MS] at hfresh ⊢; omega)]
    have hz : messages.length - MAX_STORED_MESSAGES = 0 := Nat.sub_eq_zero_of_le hlen
    rw [hz, List.drop_zero]
  · intro hstale
    simp only [saveMessages, loadMessages]
    rw [if_pos (by simp only [SEVEN_DAYS_MS] at hstale ⊢; omega)]

/-- Witness for the amended C8: one message saved at t = 5 round-trips
through a load at t = 10; the same save read at 7 days + 1 ms after the
save instant yields null and a cleared entry. -/
theorem c8_save_load_roundtrip_witness :
    ((10 : Nat) ≤ 5 + SEVEN_DAYS_MS ∧ [sampleMessage].length ≤ MAX_STORED_MESSAGES ∧
      (loadMessages (saveMessages 5 [sampleMessage] (some "sid")) 10).1
        = some { messages := [sampleMessage], lastUpdated := 5, sessionId := some "sid" }) ∧
    (5 + SEVEN_DAYS_MS < 5 + SEVEN_DAYS_MS + 1 ∧
      (loadMessages (saveMessages 5 [sampleMessage] (some "sid")) (5 + SEVEN_DAYS_MS + 1))
        = (none, clearMessages)) :=
  ⟨⟨by decide, by decide,
      (c8_save_load_roundtrip [sampleMessage] (some "sid") 5 10).2.1 (by decide) (by decide)⟩,
    ⟨by omega,
      (c8_save_load_roundtrip [sampleMessage] (some "sid") 5
        (5 + SEVEN_DAYS_MS + 1)).2.2 (by omega)⟩⟩

/-- Claim C9: the saved snapshot holds exactly the most recent
`min 100 (length)` input messages — a final segment of the input of
length `min 100 (length)` — and therefore any successful load of it
returns at most 100 messages, however many were passed to save. -/
theorem c9_save_truncates (messages : List IMessage) (sid : Option String)
    (tSave : Nat) :
    (∃ stored : StoredChatData,
      saveMessages tSave messages sid = some (.good stored) ∧
      stored.messages = messages.drop (messages.length - MAX_STORED_MESSAGES) ∧
      stored.messages <:+ messages ∧
      stored.messages.length = min MAX_STORED_MESSAGES messages.length) ∧
    (∀ tLoad : Nat, ∀ d : StoredChatData,
      (loadMessages (saveMessages tSave messages sid) tLoad).1 = some d →
      d.messages.length ≤ MAX_STORED_MESSAGES) := by
  constructor
  · refine ⟨_, rfl, rfl, List.drop_suffix _ _, ?_⟩
    rw [List.length_drop]
    omega
  · intro tLoad d hload
    simp only [saveMessages, loadMessages] at hload
    by_cases hc : tSave < tLoad - SEVEN_DAYS_MS
    · rw [if_pos hc] at hload
      exact absurd hload (by simp)
    · rw [if_neg hc] at hload
      obtain ⟨dm, dl, ds⟩ := d
      simp only [Option.some.injEq, StoredChatData.mk.injEq] at hload
      obtain ⟨hm, hl, hs⟩ := hload
      simp only [← hm, List.length_drop]
      omega

/-- Witness for C9: saving 101 copies of a message stores exactly the
last 100 of them, and a load of that snapshot returns at most 100
messages. -/
theorem c9_save_truncates_witness :
    (∃ stored : StoredChatData,
      saveMessages 0 (List.replicate 101 sampleMessage) (some "sid") = some (.good stored) ∧
      stored.messages = (List.replicate 101 sampleMessage).drop
        ((List.replicate 101 sampleMessage).length - MAX_STORED_MESSAGES) ∧
      stored.messages <:+ List.replicate 101 sampleMessage ∧
      stored.messages.length = min MAX_STORED_MESSAGES (List.replicate 101 sampleMessage).length) ∧
    (∀ tLoad : Nat, ∀ d : StoredChatData,
      (loadMessages (saveMessages 0 (List.replicate 101 sampleMessage) (some "sid")) tLoad).1
        = some d →
      d.messages.length ≤ MAX_STORED_MESSAGES) :=
  c9_save_truncates (List.replicate 101 sampleMessage) (some "sid") 0

/-- Claim C10: loadMessages is total — a pure function of the stored
entry — and never propagates a failure: an absent entry yields null, and
a malformed (unparseable) entry is cleared and yields null instead of
surfacing the parse error. -/
theorem c10_load_total (now : Nat) :
    loadMessages none now = (none, none) ∧
    loadMessages (some .malformed) now = (none, clearMessages) ∧
    clearMessages = none := by
  exact ⟨rfl, rfl, rfl⟩

end MerkleChat
